import Mathlib

/-!
Verification development for the obsidian-xterm repository.

Server side (src/server/server.js): the socket.io event handlers mutate a
global `terminals` map (socket id → PTY process) and emit typed events back
to the client socket.  We embed this as a step function on an explicit
server state; PTY processes are tracked in a list so that a process can
outlive (or lose) its registry entry.  String-valued payload fields that no
claim depends on (shell command, cwd, environment) are threaded through the
real code unchanged and are omitted from the model.

Client side (src/main.ts): `startServer` / `tryStartServer` (the process
supervisor) and the ResizeObserver callback of `TerminalView.onOpen` (the
resize path) are embedded as pure functions over an environment describing
the outcomes of the external probes (health checks, file existence, spawn
attempts).
-/

namespace ObsidianXterm

/-- One spawned PTY process: its id, the socket id whose callbacks were
wired to it at creation (`onData`/`onExit` capture the creating socket),
its dimensions, and whether it is still running. -/
structure Pty where
  id : Nat
  owner : String
  cols : Nat
  rows : Nat
  alive : Bool
deriving DecidableEq, Repr

/-- Server state: the `terminals` registry (socket id → PTY id, modelling
the `Map`), the list of every PTY process spawned so far, and the next
fresh PTY id. -/
structure SState where
  terminals : List (String × Nat)
  ptys : List Pty
  nextId : Nat
deriving DecidableEq, Repr

/-- Model of `terminals.get(socketId)`. -/
def lookupT (m : List (String × Nat)) (k : String) : Option Nat :=
  (m.find? (fun e => e.1 == k)).map (fun e => e.2)

/-- Model of `terminals.delete(socketId)`: the key is removed entirely. -/
def delT (m : List (String × Nat)) (k : String) : List (String × Nat) :=
  m.filter (fun e => e.1 != k)

/-- Model of `terminals.set(socketId, pty)`: bind the key, replacing any prior
binding. -/
def setT (m : List (String × Nat)) (k : String) (v : Nat) : List (String × Nat) :=
  (k, v) :: delT m k

/-- Find a spawned PTY process by id. -/
def findPty (ps : List Pty) (pid : Nat) : Option Pty :=
  ps.find? (fun p => p.id == pid)

/-- Mark the PTY with the given id as no longer running. -/
def markDead (ps : List Pty) (pid : Nat) : List Pty :=
  ps.map (fun p => if p.id == pid then { p with alive := false } else p)

/-- Update the recorded dimensions of the PTY with the given id. -/
def setDims (ps : List Pty) (pid : Nat) (c r : Nat) : List Pty :=
  ps.map (fun p => if p.id == pid then { p with cols := c, rows := r } else p)

/-- Inputs the server reacts to: the four socket messages, plus the two
callbacks a live PTY process can fire.  `spawnFails` models `pty.spawn`
throwing (caught by the handler's try/catch); `killFails` models
`terminal.kill()` throwing in the disconnect handler. -/
inductive Ev where
  | createTerminal (conn : String) (cols rows : Nat) (spawnFails : Bool)
  | terminalInput (conn : String) (data : String)
  | terminalResize (conn : String) (cols rows : Nat)
  | disconnect (conn : String) (killFails : Bool)
  | ptyData (pid : Nat) (data : String)
  | ptyExit (pid : Nat) (exitCode : Nat) (signal : Option Nat)
deriving DecidableEq, Repr

/-- Events the server emits to client sockets. -/
inductive Out where
  | terminalCreated (conn : String) (cols rows : Nat)
  | terminalOutput (conn : String) (data : String)
  | terminalExit (conn : String) (exitCode : Nat) (signal : Option Nat)
  | terminalError (conn : String) (code : String)
deriving DecidableEq, Repr

/-- Side effects the handlers perform on the operating system. -/
inductive Act where
  | spawn (pid : Nat)
  | write (pid : Nat) (data : String)
  | resizePty (pid : Nat) (cols rows : Nat)
  | kill (pid : Nat)
deriving DecidableEq, Repr

/-- One server reaction: the next state, the events emitted to sockets, and
the process-level side effects, each handler translated from its
`socket.on`/callback registration in src/server/server.js. -/
def step (s : SState) : Ev → SState × List Out × List Act
  | .createTerminal conn cols rows spawnFails =>
    if spawnFails then
      -- catch branch: emit terminal-error, register nothing
      (s, [.terminalError conn "TERMINAL_CREATE_FAILED"], [])
    else
      -- spawn, terminals.set (overwriting any prior binding for this
      -- socket — the prior process is not killed), emit terminal-created
      let pid := s.nextId
      ({ terminals := setT s.terminals conn pid,
         ptys := s.ptys ++ [⟨pid, conn, cols, rows, true⟩],
         nextId := pid + 1 },
       [.terminalCreated conn cols rows],
       [.spawn pid])
  | .terminalInput conn data =>
    match lookupT s.terminals conn with
    | some pid => (s, [], [.write pid data])
    | none => (s, [.terminalError conn "NO_TERMINAL"], [])
  | .terminalResize conn cols rows =>
    match lookupT s.terminals conn with
    | some pid => ({ s with ptys := setDims s.ptys pid cols rows }, [], [.resizePty pid cols rows])
    | none => (s, [], [])
  | .disconnect conn killFails =>
    match lookupT s.terminals conn with
    | some pid =>
      if killFails then
        -- terminal.kill() threw: the catch only logs, so the
        -- terminals.delete on the next line is skipped
        (s, [], [])
      else
        ({ s with terminals := delT s.terminals conn, ptys := markDead s.ptys pid }, [], [.kill pid])
    | none => (s, [], [])
  | .ptyData pid data =>
    -- onData callback: forward output to the socket captured at creation
    match findPty s.ptys pid with
    | some p => (s, [.terminalOutput p.owner data], [])
    | none => (s, [], [])
  | .ptyExit pid exitCode signal =>
    -- onExit callback: emit terminal-exit to the creating socket, then
    -- terminals.delete(socket.id) unconditionally
    match findPty s.ptys pid with
    | some p =>
      ({ s with terminals := delT s.terminals p.owner, ptys := markDead s.ptys pid },
       [.terminalExit p.owner exitCode signal], [])
    | none => (s, [], [])

/-- Whether the PTY with the given id exists and is still running. -/
def aliveAt (s : SState) (pid : Nat) : Bool :=
  (findPty s.ptys pid).any (fun p => p.alive)

/-- A PTY callback event can only fire while its process is alive. -/
def validEv (s : SState) : Ev → Bool
  | .ptyData pid _ => aliveAt s pid
  | .ptyExit pid _ _ => aliveAt s pid
  | _ => true

/-- Run a list of events through the server, collecting emissions and side
effects in order. -/
def run (s : SState) : List Ev → SState × List Out × List Act
  | [] => (s, [], [])
  | e :: es =>
    let r1 := step s e
    let r2 := run r1.1 es
    (r2.1, r1.2.1 ++ r2.2.1, r1.2.2 ++ r2.2.2)

/-- A trace is valid when every PTY callback event fires while its process
is alive in the state reached at that point. -/
def validTrace (s : SState) : List Ev → Bool
  | [] => true
  | e :: es => validEv s e && validTrace (step s e).1 es

/-- The initial server state: empty registry, no processes. -/
def s0 : SState := ⟨[], [], 0⟩

/-- No PTY owned by this connection is still running.  After a session's
process has exited (and no new one was created) this holds and rules out
any further output or exit emission to that connection. -/
def noAliveFor (conn : String) (s : SState) : Prop :=
  ∀ p ∈ s.ptys, p.owner = conn → p.alive = false

/-- Whether an event is a create-terminal request from this connection. -/
def isCreateFor (conn : String) : Ev → Bool
  | .createTerminal c _ _ _ => c == conn
  | _ => false

/-- Whether an emitted event is a session-stream event (output or exit) for
this connection. -/
def sessionOutFor (conn : String) : Out → Bool
  | .terminalOutput c _ => c == conn
  | .terminalExit c _ _ => c == conn
  | _ => false

/-!
Client resize path (src/main.ts, ResizeObserver callback in
`TerminalView.onOpen`).  The callback fires once per observed size change;
it recomputes cols/rows from the container's pixel size (character cell
9 × 17) and, when connected and the computed dimensions are positive and
differ from the emulator's current ones, resizes the emulator and emits one
`terminal-resize` message.  Pixel sizes are modelled as naturals, so
`Math.floor(w / 9)` is natural division. -/

/-- Client view state: connection flag and the emulator's current
dimensions (`this.terminal.cols` / `this.terminal.rows`). -/
structure ViewState where
  connected : Bool
  cols : Nat
  rows : Nat
deriving DecidableEq, Repr

/-- One firing of the ResizeObserver callback on a container of pixel size
`w × h`: the updated view state and the `terminal-resize` messages sent. -/
def resizeSignal (st : ViewState) (w h : Nat) : ViewState × List (Nat × Nat) :=
  if st.connected then
    let cols := w / 9
    let rows := h / 17
    if 0 < cols ∧ 0 < rows ∧ (cols ≠ st.cols ∨ rows ≠ st.rows) then
      ({ st with cols := cols, rows := rows }, [(cols, rows)])
    else (st, [])
  else (st, [])

/-- A burst of size-change signals processed in order, collecting every
`terminal-resize` message sent downstream. -/
def resizeBurst (st : ViewState) : List (Nat × Nat) → ViewState × List (Nat × Nat)
  | [] => (st, [])
  | (w, h) :: rest =>
    let r1 := resizeSignal st w h
    let r2 := resizeBurst r1.1 rest
    (r2.1, r1.2 ++ r2.2)

/-!
Process supervisor (src/main.ts, `TerminalPlugin.startServer`,
`tryStartServer`).  The environment records the outcomes of the external
operations: the `isServerRunning` flag, the two health checks, which probed
directories contain `server.js`, and what each spawn approach produced. -/

/-- Outcome of one startup approach in `tryStartServer`: either the spawn
call itself threw, or it produced a process with the given handle which,
after the 1 s wait, either was still alive (`exitCode === null` and not
`killed`) or was not. -/
inductive Attempt where
  | spawnError
  | proc (pid : Nat) (aliveAfterWait : Bool)
deriving DecidableEq, Repr

/-- Translation of `tryStartServer`: try the approaches in order; accept the first whose
process is still alive after the wait; kill each rejected process
immediately; if none survives, throw the aggregate error.  Returns the
result together with the list of processes killed, in order. -/
def tryStartServer : List Attempt → Except String Nat × List Nat
  | [] => (.error "All server startup approaches failed", [])
  | .spawnError :: rest => tryStartServer rest
  | .proc pid alive :: rest =>
    if alive then (.ok pid, [])
    else
      let r := tryStartServer rest
      (r.1, pid :: r.2)

/-- Written from the spec: the first strategy whose subprocess is still
alive and not explicitly killed after the grace wait, if any. -/
def specFirstAlive (l : List Attempt) : Option Nat :=
  l.findSome? (fun a =>
    match a with
    | .proc pid true => some pid
    | _ => none)

/-- Whether an attempt produced a surviving process. -/
def attemptAlive : Attempt → Bool
  | .proc _ true => true
  | _ => false

/-- The process handle of an attempt, when the spawn call produced one. -/
def attemptPid : Attempt → Option Nat
  | .proc pid _ => some pid
  | .spawnError => none

/-- Written from the spec: the rejected attempts' processes — every process
spawned strictly before the first surviving strategy (all of them, when no
strategy survives). -/
def specKilled (l : List Attempt) : List Nat :=
  (l.takeWhile (fun a => !attemptAlive a)).filterMap attemptPid

/-- Environment of one `startServer` invocation. -/
structure SupEnv where
  running : Bool
  healthBefore : Bool
  paths : List String
  hasServerJs : String → Bool
  attempts : List Attempt
  healthAfter : Bool

/-- Observable actions `startServer` performs. -/
inductive SupAct where
  | probeHealth
  | checkPath (p : String)
  | spawnProc (pid : Nat)
  | killProc (pid : Nat)
  | noticeFilesNotFound
  | noticeStartFailed
deriving DecidableEq, Repr

/-- The path-probing loop: check each candidate directory for `server.js`
in order, stopping at the first hit.  Returns the found directory (if any)
and the directories actually checked. -/
def probePaths (has : String → Bool) : List String → Option String × List String
  | [] => (none, [])
  | p :: rest =>
    if has p then (some p, [p])
    else
      let r := probePaths has rest
      (r.1, p :: r.2)

/-- The spawn/kill actions performed by the `tryStartServer` loop. -/
def spawnKillActs : List Attempt → List SupAct
  | [] => []
  | .spawnError :: rest => spawnKillActs rest
  | .proc pid alive :: rest =>
    if alive then [.spawnProc pid]
    else .spawnProc pid :: .killProc pid :: spawnKillActs rest

/-- Translation of `TerminalPlugin.startServer`: early-return when the running flag is
set; otherwise health-check; otherwise probe the candidate paths for
`server.js`, failing with the files-not-found notice when none has it;
otherwise run the startup approaches and do a final health check.  Returns
the boolean result and the actions performed, in order. -/
def startServer (env : SupEnv) : Bool × List SupAct :=
  if env.running then (true, [])
  else if env.healthBefore then (true, [.probeHealth])
  else
    let pr := probePaths env.hasServerJs env.paths
    let checkActs := pr.2.map SupAct.checkPath
    match pr.1 with
    | none => (false, .probeHealth :: checkActs ++ [.noticeFilesNotFound])
    | some _ =>
      let tr := tryStartServer env.attempts
      match tr.1 with
      | .error _ =>
        (false, .probeHealth :: checkActs ++ spawnKillActs env.attempts ++ [.noticeStartFailed])
      | .ok _ =>
        (env.healthAfter,
         .probeHealth :: checkActs ++ spawnKillActs env.attempts ++ [.probeHealth])

/-!
Health endpoint (src/server/server.js, `app.get` of the /health route): a
pure query of the registry and process-wide statistics. -/

/-- Model of `process.memoryUsage()`. -/
structure MemoryUsage where
  rss : Nat
  heapTotal : Nat
  heapUsed : Nat
deriving DecidableEq, Repr

/-- Process-wide statistics read by the health route. -/
structure SysInfo where
  platform : String
  uptime : Nat
  memory : MemoryUsage
deriving DecidableEq, Repr

/-- The JSON body of the health response. -/
structure HealthBody where
  status : String
  terminals : Nat
  platform : String
  uptime : Nat
  memory : MemoryUsage
deriving DecidableEq, Repr

/-- The /health route handler: HTTP status 200, the body, and the (same)
server state it leaves behind. -/
def healthHandler (s : SState) (sys : SysInfo) : Nat × HealthBody × SState :=
  (200,
   { status := "ok", terminals := s.terminals.length, platform := sys.platform,
     uptime := sys.uptime, memory := sys.memory },
   s)

/-! General lemmas about the registry and process-list operations. -/

theorem lookupT_setT_self (m : List (String × Nat)) (k : String) (v : Nat) :
    lookupT (setT m k v) k = some v := by
  simp [lookupT, setT, List.find?]

theorem lookupT_delT_self (m : List (String × Nat)) (k : String) :
    lookupT (delT m k) k = none := by
  have h : (delT m k).find? (fun e => e.1 == k) = none := by
    rw [List.find?_eq_none]
    intro x hx
    have hp := List.of_mem_filter hx
    simp only [bne_iff_ne, ne_eq] at hp
    simp [hp]
  simp [lookupT, h]

theorem find?_append_left {α : Type} (l₁ l₂ : List α) (pr : α → Bool) (a : α)
    (h : l₁.find? pr = some a) : (l₁ ++ l₂).find? pr = some a := by
  induction l₁ with
  | nil => simp at h
  | cons x t ih =>
    by_cases hx : pr x = true
    · rw [List.find?_cons_of_pos _ hx] at h
      rw [List.cons_append, List.find?_cons_of_pos _ hx]
      exact h
    · rw [List.find?_cons_of_neg _ (by simpa using hx)] at h
      rw [List.cons_append, List.find?_cons_of_neg _ (by simpa using hx)]
      exact ih h

theorem probePaths_all_missing (has : String → Bool) (l : List String)
    (h : ∀ p ∈ l, has p = false) : probePaths has l = (none, l) := by
  induction l with
  | nil => rfl
  | cons p rest ih =>
    have hp : has p = false := h p (List.mem_cons_self p rest)
    have hr := ih (fun q hq => h q (List.mem_cons_of_mem p hq))
    simp [probePaths, hp, hr]

theorem noAliveFor_markDead (conn : String) (ps : List Pty) (pid : Nat)
    (h : ∀ q ∈ ps, q.owner = conn → q.alive = true → q.id = pid) :
    ∀ p ∈ markDead ps pid, p.owner = conn → p.alive = false := by
  intro p hp hown
  rcases List.mem_map.mp hp with ⟨q, hq, rfl⟩
  by_cases hid : (q.id == pid) = true
  · simp [hid]
  · simp only [hid, Bool.false_eq_true, if_false] at hown ⊢
    by_cases hal : q.alive = true
    · exact absurd (h q hq hown hal) (by simpa using hid)
    · simpa using hal

/-- One step preserves "no live PTY for `conn`" and emits no session-stream
event for `conn`, provided the event is valid and is not a create-terminal
from `conn`. -/
theorem step_noAlive (conn : String) (s : SState) (e : Ev)
    (hP : noAliveFor conn s) (hv : validEv s e = true)
    (hne : isCreateFor conn e = false) :
    noAliveFor conn (step s e).1 ∧
    (step s e).2.1.all (fun o => !sessionOutFor conn o) = true := by
  cases e with
  | createTerminal c cols rows sf =>
    have hc : (c == conn) = false := by simpa [isCreateFor] using hne
    have hc' : c ≠ conn := by simpa using hc
    cases sf with
    | true =>
      refine ⟨hP, ?_⟩
      simp [step, sessionOutFor]
    | false =>
      constructor
      · intro p hp hown
        simp only [step] at hp
        rcases List.mem_append.mp hp with h1 | h1
        · exact hP p h1 hown
        · rcases List.mem_singleton.mp h1 with rfl
          exact absurd hown hc'
      · simp [step, sessionOutFor]
  | terminalInput c d =>
    cases h : lookupT s.terminals c with
    | some pid => exact ⟨by simpa [step, h] using hP, by simp [step, h]⟩
    | none => exact ⟨by simpa [step, h] using hP, by simp [step, h, sessionOutFor]⟩
  | terminalResize c cols rows =>
    cases h : lookupT s.terminals c with
    | some pid =>
      constructor
      · intro p hp hown
        simp only [step, h] at hp
        rcases List.mem_map.mp hp with ⟨q, hq, rfl⟩
        by_cases hid : (q.id == pid) = true
        · simpa [hid] using hP q hq (by simpa [hid] using hown)
        · simp only [hid, Bool.false_eq_true, if_false] at hown ⊢
          exact hP q hq hown
      · simp [step, h]
    | none => exact ⟨by simpa [step, h] using hP, by simp [step, h]⟩
  | disconnect c kf =>
    cases h : lookupT s.terminals c with
    | some pid =>
      cases kf with
      | true => exact ⟨by simpa [step, h] using hP, by simp [step, h]⟩
      | false =>
        constructor
        · intro p hp hown
          simp only [step, h] at hp
          rcases List.mem_map.mp hp with ⟨q, hq, rfl⟩
          by_cases hid : (q.id == pid) = true
          · simp [hid]
          · simp only [hid, Bool.false_eq_true, if_false] at hown ⊢
            exact hP q hq hown
        · simp [step, h]
    | none => exact ⟨by simpa [step, h] using hP, by simp [step, h]⟩
  | ptyData pid d =>
    cases h : findPty s.ptys pid with
    | some p =>
      have hmem : p ∈ s.ptys := List.mem_of_find?_eq_some h
      have halive : p.alive = true := by
        have := hv
        simp only [validEv, aliveAt, h, Option.any_some] at this
        exact this
      have howner : p.owner ≠ conn := fun hco => by
        have := hP p hmem hco
        rw [halive] at this
        exact Bool.true_eq_false.mp this
      refine ⟨by simpa [step, h] using hP, ?_⟩
      simp [step, h, sessionOutFor, howner]
    | none => exact ⟨by simpa [step, h] using hP, by simp [step, h]⟩
  | ptyExit pid code sig =>
    cases h : findPty s.ptys pid with
    | some p =>
      have hmem : p ∈ s.ptys := List.mem_of_find?_eq_some h
      have halive : p.alive = true := by
        have := hv
        simp only [validEv, aliveAt, h, Option.any_some] at this
        exact this
      have howner : p.owner ≠ conn := fun hco => by
        have := hP p hmem hco
        rw [halive] at this
        exact Bool.true_eq_false.mp this
      constructor
      · intro q hq hown
        simp only [step, h] at hq
        rcases List.mem_map.mp hq with ⟨q', hq', rfl⟩
        by_cases hid : (q'.id == pid) = true
        · simp [hid]
        · simp only [hid, Bool.false_eq_true, if_false] at hown ⊢
          exact hP q' hq' hown
      · simp [step, h, sessionOutFor, howner]
    | none => exact ⟨by simpa [step, h] using hP, by simp [step, h]⟩

/-- Along any valid trace with no create-terminal from `conn`, a state with
no live PTY for `conn` yields no terminal-output and no terminal-exit
emission for `conn`. -/
theorem run_noSessionOut (conn : String) (es : List Ev) :
    ∀ s : SState, noAliveFor conn s → validTrace s es = true →
      es.all (fun e => !isCreateFor conn e) = true →
      (run s es).2.1.all (fun o => !sessionOutFor conn o) = true := by
  induction es with
  | nil => intro s _ _ _; rfl
  | cons e rest ih =>
    intro s hP hv hnc
    simp only [validTrace, Bool.and_eq_true] at hv
    simp only [List.all_cons, Bool.and_eq_true] at hnc
    have hne : isCreateFor conn e = false := by
      have := hnc.1
      simpa using this
    have hstep := step_noAlive conn s e hP hv.1 hne
    simp only [run, List.all_append, Bool.and_eq_true]
    exact ⟨hstep.2, ih (step s e).1 hstep.1 hv.2 hnc.2⟩

/-! Claim theorems. -/

/-- Claim C1, counterexample: starting from the empty server, two
create-terminal requests on connection "a" overwrite the registry entry
(it ends bound to PTY 1) while PTY 0 is still alive, and the only side
effects performed are the two spawns — no kill.  The prior session's
process is left running unreferenced, so the claim as stated is false. -/
theorem create_overwrite_leaks_cex :
    (run s0 [.createTerminal "a" 80 24 false, .createTerminal "a" 80 24 false]).2.2 =
      [.spawn 0, .spawn 1] ∧
    lookupT (run s0 [.createTerminal "a" 80 24 false,
      .createTerminal "a" 80 24 false]).1.terminals "a" = some 1 ∧
    findPty (run s0 [.createTerminal "a" 80 24 false,
      .createTerminal "a" 80 24 false]).1.ptys 0 = some ⟨0, "a", 80, 24, true⟩ := by
  decide

/-- Claim C1, amended: a second create-terminal request on a connection
that already owns a live session replaces the registry entry with the new
PTY, but the prior session's PTY process is not killed — it stays alive,
referenced only by its callbacks; the only side effect is the spawn of the
new process. -/
theorem create_replaces_without_kill (s : SState) (conn : String) (pid : Nat) (p : Pty)
    (cols rows : Nat)
    (_hreg : lookupT s.terminals conn = some pid)
    (hfind : findPty s.ptys pid = some p) (halive : p.alive = true) :
    (step s (.createTerminal conn cols rows false)).2.2 = [.spawn s.nextId] ∧
    lookupT (step s (.createTerminal conn cols rows false)).1.terminals conn = some s.nextId ∧
    findPty (step s (.createTerminal conn cols rows false)).1.ptys pid = some p ∧
    p.alive = true := by
  refine ⟨rfl, ?_, ?_, halive⟩
  · simpa [step] using lookupT_setT_self s.terminals conn s.nextId
  · simpa [step, findPty] using
      find?_append_left s.ptys [⟨s.nextId, conn, cols, rows, true⟩] _ p hfind

/-- Claim C1, witness for the amended theorem at a concrete one-session
state. -/
theorem create_replaces_without_kill_witness :
    (step ⟨[("a", 0)], [⟨0, "a", 80, 24, true⟩], 1⟩
        (.createTerminal "a" 100 30 false)).2.2 = [.spawn 1] ∧
    lookupT (step ⟨[("a", 0)], [⟨0, "a", 80, 24, true⟩], 1⟩
        (.createTerminal "a" 100 30 false)).1.terminals "a" = some 1 ∧
    findPty (step ⟨[("a", 0)], [⟨0, "a", 80, 24, true⟩], 1⟩
        (.createTerminal "a" 100 30 false)).1.ptys 0 = some ⟨0, "a", 80, 24, true⟩ ∧
    (⟨0, "a", 80, 24, true⟩ : Pty).alive = true :=
  create_replaces_without_kill ⟨[("a", 0)], [⟨0, "a", 80, 24, true⟩], 1⟩ "a" 0
    ⟨0, "a", 80, 24, true⟩ 100 30 (by decide) (by decide) (by decide)

/-- Claim C2, counterexample: two failure modes of the claim as stated.
First, in the valid trace "create, process exit, input", the server emits a
terminal-error (NO_TERMINAL) for the connection after the terminal-exit.
Second, after a replacing create-terminal has leaked the prior PTY, the
valid trace "create, create, exit of the registered PTY, output from the
leaked PTY, exit of the leaked PTY" — with no further create-terminal —
emits a terminal-output and then a second terminal-exit for the connection
after the registered session's exit.  So "no further terminal-output or
terminal-error events are emitted for that connection afterward" is false
as stated. -/
theorem exit_then_error_cex :
    (validTrace s0 [.createTerminal "a" 80 24 false, .ptyExit 0 0 none,
        .terminalInput "a" "ls"] = true ∧
      (run s0 [.createTerminal "a" 80 24 false, .ptyExit 0 0 none,
        .terminalInput "a" "ls"]).2.1 =
        [.terminalCreated "a" 80 24, .terminalExit "a" 0 none,
         .terminalError "a" "NO_TERMINAL"]) ∧
    (validTrace s0 [.createTerminal "a" 80 24 false, .createTerminal "a" 80 24 false,
        .ptyExit 1 0 none, .ptyData 0 "leaked", .ptyExit 0 0 none] = true ∧
      (run s0 [.createTerminal "a" 80 24 false, .createTerminal "a" 80 24 false,
        .ptyExit 1 0 none, .ptyData 0 "leaked", .ptyExit 0 0 none]).2.1 =
        [.terminalCreated "a" 80 24, .terminalCreated "a" 80 24,
         .terminalExit "a" 0 none, .terminalOutput "a" "leaked",
         .terminalExit "a" 0 none]) := by
  decide

/-- Claim C2, amended: when the PTY process of the session registered at a
connection terminates AND that process is the connection's only live PTY
(this proviso is necessary: after a replacing create-terminal leaked a
prior PTY, the leaked process still emits terminal-output and later a
second terminal-exit, as the counterexample's second trace shows), the
Manager emits exactly one terminal-exit carrying the observed exit code and
signal, removes the connection's registry entry, and along any valid
continuation with no new create-terminal for that connection no further
terminal-output or terminal-exit event is emitted for it; a subsequent
terminal-input, however, elicits a terminal-error (NO_TERMINAL), as the
counterexample's first trace shows. -/
theorem ptyExit_exactly_one_exit (s : SState) (conn : String) (pid : Nat) (p : Pty)
    (code : Nat) (sig : Option Nat) (es : List Ev)
    (_hreg : lookupT s.terminals conn = some pid)
    (hfind : findPty s.ptys pid = some p) (hown : p.owner = conn) (_halive : p.alive = true)
    (honly : ∀ q ∈ s.ptys, q.owner = conn → q.alive = true → q.id = pid)
    (hv : validTrace (step s (.ptyExit pid code sig)).1 es = true)
    (hnc : es.all (fun e => !isCreateFor conn e) = true) :
    (step s (.ptyExit pid code sig)).2.1 = [.terminalExit conn code sig] ∧
    lookupT (step s (.ptyExit pid code sig)).1.terminals conn = none ∧
    (run (step s (.ptyExit pid code sig)).1 es).2.1.all
      (fun o => !sessionOutFor conn o) = true := by
  have hstate : (step s (.ptyExit pid code sig)).1 =
      { s with terminals := delT s.terminals p.owner, ptys := markDead s.ptys pid } := by
    simp [step, hfind]
  refine ⟨by simp [step, hfind, hown], ?_, ?_⟩
  · rw [hstate, hown]
    exact lookupT_delT_self s.terminals conn
  · refine run_noSessionOut conn es _ ?_ hv hnc
    rw [hstate]
    exact noAliveFor_markDead conn s.ptys pid honly

/-- Claim C2, witness for the amended theorem: one session on "a", its
process exits with code 0, followed by a valid continuation of an input,
a resize and a disconnect. -/
theorem ptyExit_exactly_one_exit_witness :
    (step ⟨[("a", 0)], [⟨0, "a", 80, 24, true⟩], 1⟩ (.ptyExit 0 0 none)).2.1 =
      [.terminalExit "a" 0 none] ∧
    lookupT (step ⟨[("a", 0)], [⟨0, "a", 80, 24, true⟩], 1⟩
        (.ptyExit 0 0 none)).1.terminals "a" = none ∧
    (run (step ⟨[("a", 0)], [⟨0, "a", 80, 24, true⟩], 1⟩ (.ptyExit 0 0 none)).1
        [.terminalInput "a" "ls", .terminalResize "a" 10 10, .disconnect "a" false]).2.1.all
      (fun o => !sessionOutFor "a" o) = true :=
  ptyExit_exactly_one_exit ⟨[("a", 0)], [⟨0, "a", 80, 24, true⟩], 1⟩ "a" 0
    ⟨0, "a", 80, 24, true⟩ 0 none
    [.terminalInput "a" "ls", .terminalResize "a" 10 10, .disconnect "a" false]
    (by decide) (by decide) (by decide) (by decide) (by decide) (by decide) (by decide)

/-- Claim C3, counterexample: after "create on a, disconnect with a
throwing kill", the registry still holds the entry for "a" and its PTY is
still alive — the claim's "always removes the registry entry, including
when the kill raises an error" is false as stated. -/
theorem disconnect_kill_error_keeps_entry_cex :
    (run s0 [.createTerminal "a" 80 24 false, .disconnect "a" true]).1.terminals =
      [("a", 0)] ∧
    findPty (run s0 [.createTerminal "a" 80 24 false,
      .disconnect "a" true]).1.ptys 0 = some ⟨0, "a", 80, 24, true⟩ := by
  decide

/-- Claim C3, amended: disconnect teardown on a connection with a
registered session kills the PTY and removes the registry entry when the
kill succeeds, and a second disconnect on that connection is then a safe
no-op; but when the kill itself raises an error, the error is caught and
logged and the registry entry is left in place (the state is unchanged). -/
theorem disconnect_teardown (s : SState) (conn : String) (pid : Nat)
    (hreg : lookupT s.terminals conn = some pid) :
    step s (.disconnect conn false) =
      ({ s with terminals := delT s.terminals conn, ptys := markDead s.ptys pid },
       [], [.kill pid]) ∧
    lookupT (step s (.disconnect conn false)).1.terminals conn = none ∧
    (∀ b : Bool, step (step s (.disconnect conn false)).1 (.disconnect conn b) =
      ((step s (.disconnect conn false)).1, [], [])) ∧
    step s (.disconnect conn true) = (s, [], []) := by
  have h1 : step s (.disconnect conn false) =
      ({ s with terminals := delT s.terminals conn, ptys := markDead s.ptys pid },
       [], [.kill pid]) := by
    simp [step, hreg]
  have h2 : lookupT (step s (.disconnect conn false)).1.terminals conn = none := by
    rw [h1]
    exact lookupT_delT_self s.terminals conn
  refine ⟨h1, h2, ?_, by simp [step, hreg]⟩
  intro b
  rw [h1]
  simp [step, lookupT_delT_self]

/-- Claim C3, witness for the amended theorem at a concrete one-session
state. -/
theorem disconnect_teardown_witness :
    step ⟨[("a", 0)], [⟨0, "a", 80, 24, true⟩], 1⟩ (.disconnect "a" false) =
      (⟨[], [⟨0, "a", 80, 24, false⟩], 1⟩, [], [.kill 0]) ∧
    lookupT (step ⟨[("a", 0)], [⟨0, "a", 80, 24, true⟩], 1⟩
        (.disconnect "a" false)).1.terminals "a" = none ∧
    (∀ b : Bool, step (step ⟨[("a", 0)], [⟨0, "a", 80, 24, true⟩], 1⟩
        (.disconnect "a" false)).1 (.disconnect "a" b) =
      ((step ⟨[("a", 0)], [⟨0, "a", 80, 24, true⟩], 1⟩ (.disconnect "a" false)).1, [], [])) ∧
    step ⟨[("a", 0)], [⟨0, "a", 80, 24, true⟩], 1⟩ (.disconnect "a" true) =
      (⟨[("a", 0)], [⟨0, "a", 80, 24, true⟩], 1⟩, [], []) :=
  disconnect_teardown ⟨[("a", 0)], [⟨0, "a", 80, 24, true⟩], 1⟩ "a" 0 (by decide)

/-- Claim C4, counterexample: a burst of two size-change signals with
distinct computed dimensions produces two downstream terminal-resize
messages, one per signal — the burst is not collapsed into a single
message, so there is no debounce as claimed. -/
theorem resize_burst_not_debounced_cex :
    resizeBurst ⟨true, 80, 24⟩ [(90, 170), (180, 340)] =
      (⟨true, 20, 20⟩, [(10, 10), (20, 20)]) := by
  decide

/-- Claim C4, amended: the ResizeObserver callback is not debounced — each
size-change signal whose computed dimensions differ from the emulator's
current ones immediately sends one terminal-resize message — but a signal
whose computed dimensions equal the current ones sends nothing, so two
immediate size-change signals with identical pixel dimensions produce at
most one downstream message. -/
theorem resize_identical_at_most_one (st : ViewState) (conn : Bool) (w h : Nat) :
    (resizeBurst st [(w, h), (w, h)]).2.length ≤ 1 ∧
    (resizeSignal ⟨conn, w / 9, h / 17⟩ w h).2 = [] := by
  constructor
  · by_cases hc : st.connected
    · by_cases hcond : 0 < w / 9 ∧ 0 < h / 17 ∧ (w / 9 ≠ st.cols ∨ h / 17 ≠ st.rows)
      · simp [resizeBurst, resizeSignal, hc, hcond]
      · simp [resizeBurst, resizeSignal, hc, hcond]
    · simp [resizeBurst, resizeSignal, hc]
  · cases conn <;> simp [resizeSignal]

/-- Claim C5: when the running flag is down, the first health check fails
and no probed directory contains server.js, startServer performs the health
probe and the path checks, posts the files-not-found notice, returns
failure, and spawns no subprocess. -/
theorem startServer_files_not_found (env : SupEnv)
    (hrun : env.running = false) (hh : env.healthBefore = false)
    (hno : ∀ p ∈ env.paths, env.hasServerJs p = false) :
    startServer env =
      (false, .probeHealth :: env.paths.map SupAct.checkPath ++ [.noticeFilesNotFound]) ∧
    ∀ a ∈ (startServer env).2, ∀ pid, a ≠ SupAct.spawnProc pid := by
  have hmain : startServer env =
      (false, .probeHealth :: env.paths.map SupAct.checkPath ++ [.noticeFilesNotFound]) := by
    simp [startServer, hrun, hh, probePaths_all_missing env.hasServerJs env.paths hno]
  refine ⟨hmain, ?_⟩
  intro a ha pid
  rw [hmain] at ha
  rcases List.mem_cons.mp ha with rfl | ha1
  · exact fun hcontra => SupAct.noConfusion hcontra
  rcases List.mem_append.mp ha1 with ha2 | ha2
  · rcases List.mem_map.mp ha2 with ⟨q, _, rfl⟩
    exact fun hcontra => SupAct.noConfusion hcontra
  · rcases List.mem_singleton.mp ha2 with rfl
    exact fun hcontra => SupAct.noConfusion hcontra

/-- Claim C5, witness at a concrete environment with two candidate paths
and no server.js anywhere. -/
theorem startServer_files_not_found_witness :
    startServer ⟨false, false, ["x", "y"], fun _ => false, [], false⟩ =
      (false, [.probeHealth, .checkPath "x", .checkPath "y", .noticeFilesNotFound]) :=
  (startServer_files_not_found ⟨false, false, ["x", "y"], fun _ => false, [], false⟩
    rfl rfl (by intro p _; rfl)).1

/-- Claim C6: tryStartServer accepts the first strategy whose subprocess is
still alive after the grace wait (returning its handle), kills exactly the
processes of the rejected attempts that preceded it, and when no strategy
survives it returns the single aggregate error with no process handle,
having killed every spawned process. -/
theorem tryStartServer_first_alive (l : List Attempt) :
    tryStartServer l =
      ((match specFirstAlive l with
        | some pid => .ok pid
        | none => .error "All server startup approaches failed"),
       specKilled l) := by
  induction l with
  | nil => rfl
  | cons a rest ih =>
    cases a with
    | spawnError =>
      simpa [tryStartServer, specFirstAlive, specKilled, attemptAlive, attemptPid,
        List.findSome?_cons] using ih
    | proc pid alive =>
      cases alive with
      | true =>
        simp [tryStartServer, specFirstAlive, specKilled, attemptAlive, attemptPid,
          List.findSome?_cons]
      | false =>
        simp only [tryStartServer, ih]
        simp [specFirstAlive, specKilled, attemptAlive, attemptPid, List.findSome?_cons]

/-- Claim C7: a terminal-input on a connection with no registered session
emits exactly one terminal-error with code NO_TERMINAL and does nothing
else — the state is unchanged and no side effect (no write, no spawn) is
performed. -/
theorem input_no_session (s : SState) (conn data : String)
    (h : lookupT s.terminals conn = none) :
    step s (.terminalInput conn data) = (s, [.terminalError conn "NO_TERMINAL"], []) := by
  simp [step, h]

/-- Claim C7, witness at the empty server state. -/
theorem input_no_session_witness :
    step s0 (.terminalInput "a" "ls") = (s0, [.terminalError "a" "NO_TERMINAL"], []) :=
  input_no_session s0 "a" "ls" rfl

/-- Claim C8: when the running flag is already set, startServer returns
success immediately and performs no action at all — no health probe, no
path check, no spawn. -/
theorem startServer_already_running (env : SupEnv) (h : env.running = true) :
    startServer env = (true, []) := by
  simp [startServer, h]

/-- Claim C8, witness at a concrete environment with the running flag
set. -/
theorem startServer_already_running_witness :
    startServer ⟨true, false, ["x"], fun _ => false, [], false⟩ = (true, []) :=
  startServer_already_running ⟨true, false, ["x"], fun _ => false, [], false⟩ rfl

/-- Claim C9: the /health route returns HTTP 200 with status "ok", the
terminals field equal to the number of entries in the session registry, the
platform, uptime and memory-usage fields, and leaves the server state
unchanged; in particular after three create-terminal requests on three
distinct connections it reports terminals = 3. -/
theorem health_reports_registry_size (s : SState) (sys : SysInfo) :
    healthHandler s sys =
      (200,
       { status := "ok", terminals := s.terminals.length, platform := sys.platform,
         uptime := sys.uptime, memory := sys.memory },
       s) ∧
    (healthHandler (run s0 [.createTerminal "a" 80 24 false,
        .createTerminal "b" 80 24 false, .createTerminal "c" 80 24 false]).1
      sys).2.1.terminals = 3 :=
  ⟨rfl, rfl⟩

/-- Claim C10: a terminal-resize on a connection with no registered session
does nothing at all — no event is emitted (unlike terminal-input), no side
effect is performed, and the state is unchanged. -/
theorem resize_no_session (s : SState) (conn : String) (cols rows : Nat)
    (h : lookupT s.terminals conn = none) :
    step s (.terminalResize conn cols rows) = (s, [], []) := by
  simp [step, h]

/-- Claim C10, witness at the empty server state. -/
theorem resize_no_session_witness :
    step s0 (.terminalResize "a" 10 10) = (s0, [], []) :=
  resize_no_session s0 "a" 10 10 rfl

end ObsidianXterm
